import Mathlib

/-!
Shallow embedding of `Sources/BamlFFIC/baml_ffi_c.c` (the swaml BAML FFI C
wrapper).  C pointers are modelled as `Option Nat` (`none` = NULL); the
`BamlCBuffer` struct as a record; the `BamlLibrary` struct as a record whose
function-pointer fields are `Option`s of Lean functions (a resolved
buffer-returning symbol is an arbitrary Lean function over the same
arguments; a resolved void-returning symbol is `some ()`, since only its
presence and the arguments it is invoked with are observable at this layer).
Every wrapper operation returns, besides the values it writes, an explicit
trace of the underlying symbols it invoked (`CallEvent`) or of the OS
resource actions it performed (`OSEvent`), so that "invokes nothing" and
"no leaked OS handle / wrapper allocation" are statable.
-/

namespace BamlFFI

/-- A C pointer: `none` is NULL, `some a` a non-null address. -/
abbrev Ptr := Option Nat

/-- `BamlCBuffer` from `baml_ffi_c.h`: `{ const int8_t* ptr; size_t len; }`. -/
structure BamlCBuffer where
  ptr : Ptr
  len : Nat
deriving Repr, DecidableEq

/-- Type of the resolved `create_baml_runtime` symbol. -/
abbrev CreateRuntimeFn := Ptr → Ptr → Ptr → Ptr

/-- Type of the resolved `call_function_from_c` / `call_function_stream_from_c` symbols. -/
abbrev CallFunctionFn := Ptr → Ptr → Ptr → Nat → Nat → BamlCBuffer

/-- Type of the resolved `call_object_constructor` symbol. -/
abbrev CallObjectConstructorFn := Ptr → Nat → BamlCBuffer

/-- Type of the resolved `call_object_method` symbol. -/
abbrev CallObjectMethodFn := Ptr → Ptr → Nat → BamlCBuffer

/-- Type of the resolved `version` symbol. -/
abbrev VersionFn := Unit → BamlCBuffer

/-- `struct BamlLibrary` from `baml_ffi_c.c`: the OS handle plus nine
function-pointer fields, each possibly NULL (`none`). -/
structure BamlLibrary where
  handle : Ptr
  create_runtime : Option CreateRuntimeFn
  destroy_runtime : Option Unit
  call_function : Option CallFunctionFn
  call_function_stream : Option CallFunctionFn
  call_object_constructor : Option CallObjectConstructorFn
  call_object_method : Option CallObjectMethodFn
  free_buffer : Option Unit
  version : Option VersionFn
  register_callbacks : Option Unit

/-- The `dlsym` results an OS offers for one opened library handle: one
entry per exported name the wrapper looks up. -/
structure OSSymbols where
  create_baml_runtime : Option CreateRuntimeFn
  destroy_baml_runtime : Option Unit
  call_function_from_c : Option CallFunctionFn
  call_function_stream_from_c : Option CallFunctionFn
  call_object_constructor : Option CallObjectConstructorFn
  call_object_method : Option CallObjectMethodFn
  free_buffer : Option Unit
  version : Option VersionFn
  register_callbacks : Option Unit

/-- The environment the wrapper runs against: `dlopen` resolves a path to a
non-null OS handle or fails, `dlsym` gives the symbol table of an opened
handle, `callocOk` says whether `calloc` of the wrapper state succeeds. -/
structure OS where
  dlopen : String → Option Nat
  dlsym : Nat → OSSymbols
  callocOk : Bool

/-- One invocation of an underlying library symbol, with the exact
arguments the wrapper passed. -/
inductive CallEvent where
  | createRuntime (rootPath srcFilesJson envVarsJson : Ptr)
  | destroyRuntime (runtime : Ptr)
  | callFunction (runtime functionName encodedArgs : Ptr) (argsLen callId : Nat)
  | callFunctionStream (runtime functionName encodedArgs : Ptr) (argsLen callId : Nat)
  | callObjectConstructor (encodedArgs : Ptr) (argsLen : Nat)
  | callObjectMethod (runtime encodedArgs : Ptr) (argsLen : Nat)
  | freeBuffer (ptr : Ptr) (len : Nat)
  | versionQuery
  | registerCallbacks (resultCb errorCb tickCb : Ptr)
deriving Repr, DecidableEq

/-- One OS-level resource action of the load/unload paths. -/
inductive OSEvent where
  | dlopenCall (path : String) (result : Option Nat)
  | dlcloseCall (handle : Nat)
  | callocCall
  | freeCall
deriving Repr, DecidableEq

/-- `load_symbols` (baml_ffi_c.c:31): guards `!lib || !lib->handle`, then
fills the nine function-pointer fields from `dlsym` and reports whether the
two mandatory symbols (`create_baml_runtime`, `call_function_from_c`)
resolved.  Returns the (possibly updated) struct and the `bool`. -/
def load_symbols (os : OS) (lib : Option BamlLibrary) : Option BamlLibrary × Bool :=
  match lib with
  | none => (none, false)
  | some l =>
    match l.handle with
    | none => (some l, false)
    | some h =>
      let s := os.dlsym h
      let l2 : BamlLibrary :=
        { handle := l.handle
          create_runtime := s.create_baml_runtime
          destroy_runtime := s.destroy_baml_runtime
          call_function := s.call_function_from_c
          call_function_stream := s.call_function_stream_from_c
          call_object_constructor := s.call_object_constructor
          call_object_method := s.call_object_method
          free_buffer := s.free_buffer
          version := s.version
          register_callbacks := s.register_callbacks }
      (some l2, s.create_baml_runtime.isSome && s.call_function_from_c.isSome)

/-- Result of a load operation: the OS actions performed and the returned
`BamlLibrary*` (`none` = NULL). -/
structure LoadResult where
  events : List OSEvent
  lib : Option BamlLibrary

/-- A freshly `calloc`ed (zeroed) wrapper struct with its `handle` field set,
as in baml_ffi_c.c:56-62. -/
def freshLib (h : Nat) : BamlLibrary :=
  { handle := some h
    create_runtime := none
    destroy_runtime := none
    call_function := none
    call_function_stream := none
    call_object_constructor := none
    call_object_method := none
    free_buffer := none
    version := none
    register_callbacks := none }

/-- `baml_library_load` (baml_ffi_c.c:48): NULL path returns NULL with no
OS action; otherwise `dlopen`, `calloc`, `load_symbols`; on `calloc` failure
the opened handle is closed; on mandatory-symbol failure the handle is
closed and the wrapper state freed. -/
def baml_library_load (os : OS) (path : Option String) : LoadResult :=
  match path with
  | none => { events := [], lib := none }
  | some p =>
    match os.dlopen p with
    | none => { events := [OSEvent.dlopenCall p none], lib := none }
    | some h =>
      if os.callocOk then
        let r := load_symbols os (some (freshLib h))
        if r.2 then
          { events := [OSEvent.dlopenCall p (some h), OSEvent.callocCall], lib := r.1 }
        else
          { events := [OSEvent.dlopenCall p (some h), OSEvent.callocCall,
                       OSEvent.dlcloseCall h, OSEvent.freeCall]
            lib := none }
      else
        { events := [OSEvent.dlopenCall p (some h), OSEvent.dlcloseCall h], lib := none }

/-- The compilation platform selecting the candidate list in
`baml_library_load_default` (the `#if` at baml_ffi_c.c:75-95). -/
inductive Platform where
  | apple
  | linux
  | other
deriving Repr, DecidableEq

/-- The platform-specific candidate path lists of `baml_library_load_default`,
in the listed order. -/
def defaultPaths : Platform → List String
  | Platform.apple =>
      ["libbaml_ffi.dylib", "./libbaml_ffi.dylib", "./lib/libbaml_ffi.dylib",
       "/usr/local/lib/libbaml_ffi.dylib", "BamlFFI.framework/BamlFFI"]
  | Platform.linux =>
      ["libbaml_ffi.so", "./libbaml_ffi.so", "./lib/libbaml_ffi.so",
       "/usr/local/lib/libbaml_ffi.so", "/usr/lib/libbaml_ffi.so"]
  | Platform.other => []

/-- The probing loop of `baml_library_load_default` (baml_ffi_c.c:97-100):
try each path with `baml_library_load`, return the first non-NULL result. -/
def probePaths (os : OS) : List String → LoadResult
  | [] => { events := [], lib := none }
  | p :: rest =>
    let r := baml_library_load os (some p)
    match r.lib with
    | some l => { events := r.events, lib := some l }
    | none =>
      let r2 := probePaths os rest
      { events := r.events ++ r2.events, lib := r2.lib }

/-- `baml_library_load_default` (baml_ffi_c.c:73). -/
def baml_library_load_default (os : OS) (plat : Platform) : LoadResult :=
  probePaths os (defaultPaths plat)

/-- `baml_library_unload` (baml_ffi_c.c:105): NULL is a no-op; otherwise
`dlclose` the OS handle when non-null, then `free` the wrapper state. -/
def baml_library_unload (lib : Option BamlLibrary) : List OSEvent :=
  match lib with
  | none => []
  | some l =>
    match l.handle with
    | none => [OSEvent.freeCall]
    | some h => [OSEvent.dlcloseCall h, OSEvent.freeCall]

/-- `baml_library_is_loaded` (baml_ffi_c.c:114):
`lib != NULL && lib->handle != NULL`. -/
def baml_library_is_loaded (lib : Option BamlLibrary) : Bool :=
  match lib with
  | none => false
  | some l => l.handle.isSome

/-- Result of a buffer-returning dispatcher operation: the symbols invoked,
and what was written through `out_ptr` / `out_len` (`none` = that output
location was NULL and nothing was written through it). -/
structure DispatchResult where
  events : List CallEvent
  outPtrWrite : Option Ptr
  outLenWrite : Option Nat
deriving Repr, DecidableEq

/-- The validation-failure epilogue shared by every buffer-returning
operation: `if (out_ptr) *out_ptr = NULL; if (out_len) *out_len = 0;`
with no symbol invoked. -/
def nullOutput (out_ptr out_len : Ptr) : DispatchResult :=
  { events := []
    outPtrWrite := out_ptr.map fun _ => (none : Ptr)
    outLenWrite := out_len.map fun _ => 0 }

/-- `baml_version` (baml_ffi_c.c:118). -/
def baml_version (lib : Option BamlLibrary) (out_ptr out_len : Ptr) : DispatchResult :=
  match lib with
  | none => nullOutput out_ptr out_len
  | some l =>
    match l.version with
    | none => nullOutput out_ptr out_len
    | some vf =>
      if out_ptr.isNone || out_len.isNone then nullOutput out_ptr out_len
      else
        let result := vf ()
        { events := [CallEvent.versionQuery]
          outPtrWrite := some result.ptr
          outLenWrite := some result.len }

/-- Result of `baml_create_runtime`: the symbols invoked and the returned
`void*`. -/
structure CreateRuntimeResult where
  events : List CallEvent
  runtime : Ptr

/-- `baml_create_runtime` (baml_ffi_c.c:130). -/
def baml_create_runtime (lib : Option BamlLibrary)
    (root_path src_files_json env_vars_json : Ptr) : CreateRuntimeResult :=
  match lib with
  | none => { events := [], runtime := none }
  | some l =>
    match l.create_runtime with
    | none => { events := [], runtime := none }
    | some f =>
      { events := [CallEvent.createRuntime root_path src_files_json env_vars_json]
        runtime := f root_path src_files_json env_vars_json }

/-- `baml_destroy_runtime` (baml_ffi_c.c:140): returns only the trace of
invoked symbols. -/
def baml_destroy_runtime (lib : Option BamlLibrary) (runtime : Ptr) : List CallEvent :=
  match lib with
  | none => []
  | some l =>
    match l.destroy_runtime with
    | none => []
    | some _ =>
      if runtime.isNone then []
      else [CallEvent.destroyRuntime runtime]

/-- `baml_call_function` (baml_ffi_c.c:145). -/
def baml_call_function (lib : Option BamlLibrary)
    (runtime function_name encoded_args : Ptr) (args_len call_id : Nat)
    (out_ptr out_len : Ptr) : DispatchResult :=
  match lib with
  | none => nullOutput out_ptr out_len
  | some l =>
    match l.call_function with
    | none => nullOutput out_ptr out_len
    | some f =>
      if runtime.isNone || out_ptr.isNone || out_len.isNone then
        nullOutput out_ptr out_len
      else
        let result := f runtime function_name encoded_args args_len call_id
        { events := [CallEvent.callFunction runtime function_name encoded_args args_len call_id]
          outPtrWrite := some result.ptr
          outLenWrite := some result.len }

/-- `baml_call_function_stream` (baml_ffi_c.c:166). -/
def baml_call_function_stream (lib : Option BamlLibrary)
    (runtime function_name encoded_args : Ptr) (args_len call_id : Nat)
    (out_ptr out_len : Ptr) : DispatchResult :=
  match lib with
  | none => nullOutput out_ptr out_len
  | some l =>
    match l.call_function_stream with
    | none => nullOutput out_ptr out_len
    | some f =>
      if runtime.isNone || out_ptr.isNone || out_len.isNone then
        nullOutput out_ptr out_len
      else
        let result := f runtime function_name encoded_args args_len call_id
        { events := [CallEvent.callFunctionStream runtime function_name encoded_args args_len call_id]
          outPtrWrite := some result.ptr
          outLenWrite := some result.len }

/-- `baml_call_object_constructor` (baml_ffi_c.c:187): no runtime argument. -/
def baml_call_object_constructor (lib : Option BamlLibrary)
    (encoded_args : Ptr) (args_len : Nat) (out_ptr out_len : Ptr) : DispatchResult :=
  match lib with
  | none => nullOutput out_ptr out_len
  | some l =>
    match l.call_object_constructor with
    | none => nullOutput out_ptr out_len
    | some f =>
      if out_ptr.isNone || out_len.isNone then nullOutput out_ptr out_len
      else
        let result := f encoded_args args_len
        { events := [CallEvent.callObjectConstructor encoded_args args_len]
          outPtrWrite := some result.ptr
          outLenWrite := some result.len }

/-- `baml_call_object_method` (baml_ffi_c.c:205): requires a runtime. -/
def baml_call_object_method (lib : Option BamlLibrary)
    (runtime encoded_args : Ptr) (args_len : Nat) (out_ptr out_len : Ptr) : DispatchResult :=
  match lib with
  | none => nullOutput out_ptr out_len
  | some l =>
    match l.call_object_method with
    | none => nullOutput out_ptr out_len
    | some f =>
      if runtime.isNone || out_ptr.isNone || out_len.isNone then
        nullOutput out_ptr out_len
      else
        let result := f runtime encoded_args args_len
        { events := [CallEvent.callObjectMethod runtime encoded_args args_len]
          outPtrWrite := some result.ptr
          outLenWrite := some result.len }

/-- `baml_free_buffer` (baml_ffi_c.c:224): guards
`!lib || !lib->free_buffer || !ptr`. -/
def baml_free_buffer (lib : Option BamlLibrary) (ptr : Ptr) (len : Nat) : List CallEvent :=
  match lib with
  | none => []
  | some l =>
    match l.free_buffer with
    | none => []
    | some _ =>
      if ptr.isNone then []
      else [CallEvent.freeBuffer ptr len]

/-- `baml_register_callbacks` (baml_ffi_c.c:229): guards
`!lib || !lib->register_callbacks`, then forwards the three callback
pointers. -/
def baml_register_callbacks (lib : Option BamlLibrary)
    (result_cb error_cb tick_cb : Ptr) : List CallEvent :=
  match lib with
  | none => []
  | some l =>
    match l.register_callbacks with
    | none => []
    | some _ => [CallEvent.registerCallbacks result_cb error_cb tick_cb]

/-- The multiset (as a list) of OS library handles still open after a trace:
each successful `dlopen` adds its handle, each `dlclose` removes one
occurrence. -/
def netOpenHandles (evs : List OSEvent) : List Nat :=
  List.foldl
    (fun acc e =>
      match e with
      | OSEvent.dlopenCall _ (some h) => acc ++ [h]
      | OSEvent.dlcloseCall h => acc.erase h
      | _ => acc)
    [] evs

/-- The number of wrapper-state allocations still live after a trace. -/
def netAllocs (evs : List OSEvent) : Nat :=
  List.foldl
    (fun acc e =>
      match e with
      | OSEvent.callocCall => acc + 1
      | OSEvent.freeCall => acc - 1
      | _ => acc)
    0 evs

end BamlFFI

namespace BamlFFI

/-! ### Concrete fixtures used by witnesses -/

/-- A concrete buffer a stub symbol returns. -/
def stubBuf : BamlCBuffer := { ptr := some 100, len := 4 }

/-- A concrete resolved `create_baml_runtime` stub. -/
def stubCreate : CreateRuntimeFn := fun _ _ _ => some 9

/-- A concrete resolved call stub. -/
def stubCall : CallFunctionFn := fun _ _ _ _ _ => stubBuf

/-- A concrete resolved object-constructor stub. -/
def stubObjCtor : CallObjectConstructorFn := fun _ _ => stubBuf

/-- A concrete resolved object-method stub. -/
def stubObjMethod : CallObjectMethodFn := fun _ _ _ => stubBuf

/-- A concrete resolved `version` stub. -/
def stubVersion : VersionFn := fun _ => stubBuf

/-- A symbol table with all nine symbols resolved. -/
def fullSyms : OSSymbols :=
  { create_baml_runtime := some stubCreate
    destroy_baml_runtime := some ()
    call_function_from_c := some stubCall
    call_function_stream_from_c := some stubCall
    call_object_constructor := some stubObjCtor
    call_object_method := some stubObjMethod
    free_buffer := some ()
    version := some stubVersion
    register_callbacks := some () }

/-- A symbol table resolving only the two mandatory symbols. -/
def mandatoryOnlySyms : OSSymbols :=
  { create_baml_runtime := some stubCreate
    destroy_baml_runtime := none
    call_function_from_c := some stubCall
    call_function_stream_from_c := none
    call_object_constructor := none
    call_object_method := none
    free_buffer := none
    version := none
    register_callbacks := none }

/-- A symbol table resolving nothing. -/
def emptySyms : OSSymbols :=
  { create_baml_runtime := none
    destroy_baml_runtime := none
    call_function_from_c := none
    call_function_stream_from_c := none
    call_object_constructor := none
    call_object_method := none
    free_buffer := none
    version := none
    register_callbacks := none }

/-- OS where every open succeeds on handle 1 exposing all symbols. -/
def goodOS : OS := { dlopen := fun _ => some 1, dlsym := fun _ => fullSyms, callocOk := true }

/-- OS where every open succeeds on handle 2 exposing only the mandatory symbols. -/
def mandOS : OS :=
  { dlopen := fun _ => some 2, dlsym := fun _ => mandatoryOnlySyms, callocOk := true }

/-- OS where every open fails. -/
def noOpenOS : OS := { dlopen := fun _ => none, dlsym := fun _ => fullSyms, callocOk := true }

/-- OS where opens succeed on handle 3 but no symbol resolves. -/
def noSymsOS : OS := { dlopen := fun _ => some 3, dlsym := fun _ => emptySyms, callocOk := true }

/-- The fully resolved in-memory library struct that loading against
`goodOS` yields. -/
def fullLib : BamlLibrary :=
  { handle := some 1
    create_runtime := some stubCreate
    destroy_runtime := some ()
    call_function := some stubCall
    call_function_stream := some stubCall
    call_object_constructor := some stubObjCtor
    call_object_method := some stubObjMethod
    free_buffer := some ()
    version := some stubVersion
    register_callbacks := some () }

/-- The library struct that loading against `mandOS` yields. -/
def mandLib : BamlLibrary :=
  { handle := some 2
    create_runtime := some stubCreate
    destroy_runtime := none
    call_function := some stubCall
    call_function_stream := none
    call_object_constructor := none
    call_object_method := none
    free_buffer := none
    version := none
    register_callbacks := none }

/-- A wrapper struct whose OS handle field is NULL. -/
def nullHandleLib : BamlLibrary := { freshLib 0 with handle := none }

/-! ### Claims -/

/-- C9: `baml_library_load` with a NULL path returns NULL immediately: it
performs no OS action at all, in particular no `dlopen`, so it can never
hand out a handle derived from opening the host executable. -/
theorem C9_null_path_load (os : OS) :
    baml_library_load os none = { events := [], lib := none } := rfl

/-- C5: `baml_free_buffer` invokes nothing when the buffer pointer is NULL;
when the library handle is non-null and its `free_buffer` symbol resolved,
a non-null pointer and its length are forwarded verbatim to that symbol;
when the library handle is NULL or the symbol unresolved it likewise
invokes nothing. -/
theorem C5_free_buffer_spec (lib : Option BamlLibrary) (l : BamlLibrary) (p len : Nat) :
    baml_free_buffer lib none len = [] ∧
    (l.free_buffer = some () →
      baml_free_buffer (some l) (some p) len = [CallEvent.freeBuffer (some p) len]) ∧
    baml_free_buffer none (some p) len = [] ∧
    (l.free_buffer = none → baml_free_buffer (some l) (some p) len = []) := by
  refine ⟨?_, ?_, rfl, ?_⟩
  · cases lib with
    | none => rfl
    | some l2 =>
      cases hf : l2.free_buffer with
      | none => simp [baml_free_buffer, hf]
      | some u => simp [baml_free_buffer, hf]
  · intro hf
    simp [baml_free_buffer, hf]
  · intro hf
    simp [baml_free_buffer, hf]

/-- Witness for C5 at concrete libraries. -/
theorem C5_free_buffer_spec_witness :
    baml_free_buffer (some fullLib) (some 5) 7 = [CallEvent.freeBuffer (some 5) 7] ∧
    baml_free_buffer none (some 5) 7 = [] :=
  ⟨(C5_free_buffer_spec (some fullLib) fullLib 5 7).2.1 rfl,
   (C5_free_buffer_spec (some fullLib) fullLib 5 7).2.2.1⟩

/-- C7: `baml_register_callbacks` forwards the three callback pointers
unchanged to the resolved registration symbol; it invokes nothing when the
library handle is NULL or the registration symbol unresolved; and a library
loaded from an OS that does not resolve `register_callbacks` (for instance
one exposing only the two mandatory symbols) yields a no-op registration. -/
theorem C7_register_callbacks_spec (os : OS) (pa : String) (h : Nat) (l : BamlLibrary)
    (r e t : Ptr) :
    (l.register_callbacks = some () →
      baml_register_callbacks (some l) r e t = [CallEvent.registerCallbacks r e t]) ∧
    baml_register_callbacks none r e t = [] ∧
    (l.register_callbacks = none → baml_register_callbacks (some l) r e t = []) ∧
    (os.dlopen pa = some h → (os.dlsym h).register_callbacks = none →
      (baml_library_load os (some pa)).lib = some l →
      baml_register_callbacks (some l) r e t = []) := by
  refine ⟨?_, rfl, ?_, ?_⟩
  · intro hr
    simp [baml_register_callbacks, hr]
  · intro hr
    simp [baml_register_callbacks, hr]
  · intro hopen hreg hload
    simp only [baml_library_load, hopen] at hload
    cases hc : os.callocOk with
    | false => simp [hc] at hload
    | true =>
      simp only [hc, if_true, load_symbols, freshLib] at hload
      cases hm : ((os.dlsym h).create_baml_runtime.isSome
          && (os.dlsym h).call_function_from_c.isSome) with
      | false => simp [hm] at hload
      | true =>
        simp only [hm, if_true, Option.some.injEq] at hload
        subst hload
        simp [baml_register_callbacks, hreg]

/-- Witness for C7: concrete registration forwarding and the
mandatory-symbols-only no-op scenario. -/
theorem C7_register_callbacks_spec_witness :
    baml_register_callbacks (some fullLib) (some 11) (some 12) (some 13) =
      [CallEvent.registerCallbacks (some 11) (some 12) (some 13)] ∧
    baml_register_callbacks (some mandLib) (some 11) (some 12) (some 13) = [] :=
  ⟨(C7_register_callbacks_spec mandOS "p" 2 fullLib (some 11) (some 12) (some 13)).1 rfl,
   (C7_register_callbacks_spec mandOS "p" 2 mandLib
      (some 11) (some 12) (some 13)).2.2.2 rfl rfl rfl⟩

/-- C8: unloading a NULL handle is a no-op; unloading a non-null handle
closes its non-null OS reference and frees the wrapper state (frees only,
when the OS reference is NULL); and any `baml_library_load` immediately
followed by `baml_library_unload` of its result leaves no open OS library
reference and no live wrapper allocation. -/
theorem C8_unload_spec (os : OS) (path : Option String) (l : BamlLibrary) (h : Nat) :
    baml_library_unload none = [] ∧
    (l.handle = some h →
      baml_library_unload (some l) = [OSEvent.dlcloseCall h, OSEvent.freeCall]) ∧
    (l.handle = none → baml_library_unload (some l) = [OSEvent.freeCall]) ∧
    netOpenHandles ((baml_library_load os path).events
        ++ baml_library_unload (baml_library_load os path).lib) = [] ∧
    netAllocs ((baml_library_load os path).events
        ++ baml_library_unload (baml_library_load os path).lib) = 0 := by
  refine ⟨rfl, ?_, ?_, ?_⟩
  · intro hh
    simp [baml_library_unload, hh]
  · intro hh
    simp [baml_library_unload, hh]
  · cases path with
    | none => exact ⟨rfl, rfl⟩
    | some p =>
      cases hopen : os.dlopen p with
      | none =>
        constructor <;>
          simp [baml_library_load, hopen, baml_library_unload, netOpenHandles, netAllocs]
      | some hd =>
        cases hc : os.callocOk with
        | false =>
          constructor <;>
            simp [baml_library_load, hopen, hc, baml_library_unload,
              netOpenHandles, netAllocs]
        | true =>
          cases hm : ((os.dlsym hd).create_baml_runtime.isSome
              && (os.dlsym hd).call_function_from_c.isSome) with
          | false =>
            constructor <;>
              simp [baml_library_load, hopen, hc, hm, load_symbols, freshLib,
                baml_library_unload, netOpenHandles, netAllocs]
          | true =>
            constructor <;>
              simp [baml_library_load, hopen, hc, hm, load_symbols, freshLib,
                baml_library_unload, netOpenHandles, netAllocs]

/-- Witness for C8 at concrete wrapper structs. -/
theorem C8_unload_spec_witness :
    baml_library_unload (some fullLib) = [OSEvent.dlcloseCall 1, OSEvent.freeCall] ∧
    baml_library_unload (some nullHandleLib) = [OSEvent.freeCall] :=
  ⟨(C8_unload_spec goodOS none fullLib 1).2.1 rfl,
   (C8_unload_spec goodOS none nullHandleLib 1).2.2.1 rfl⟩

end BamlFFI

namespace BamlFFI

/-- C1: for every Call Dispatcher operation, when the library handle is
NULL, or the operation's resolved symbol is absent, or a required runtime
argument is NULL, the operation invokes no underlying symbol and writes a
NULL pointer and zero length to its (non-null) output locations;
`baml_create_runtime` returns NULL and `baml_destroy_runtime` returns
having invoked nothing. -/
theorem C1_validation_failure (lib : Option BamlLibrary)
    (runtime root src env fn args : Ptr) (alen cid a b : Nat) :
    ((lib = none ∨ lib.bind BamlLibrary.version = none) →
      baml_version lib (some a) (some b) =
        { events := [], outPtrWrite := some none, outLenWrite := some 0 }) ∧
    ((lib = none ∨ lib.bind BamlLibrary.create_runtime = none) →
      baml_create_runtime lib root src env = { events := [], runtime := none }) ∧
    ((lib = none ∨ lib.bind BamlLibrary.destroy_runtime = none ∨ runtime = none) →
      baml_destroy_runtime lib runtime = []) ∧
    ((lib = none ∨ lib.bind BamlLibrary.call_function = none ∨ runtime = none) →
      baml_call_function lib runtime fn args alen cid (some a) (some b) =
        { events := [], outPtrWrite := some none, outLenWrite := some 0 }) ∧
    ((lib = none ∨ lib.bind BamlLibrary.call_function_stream = none ∨ runtime = none) →
      baml_call_function_stream lib runtime fn args alen cid (some a) (some b) =
        { events := [], outPtrWrite := some none, outLenWrite := some 0 }) ∧
    ((lib = none ∨ lib.bind BamlLibrary.call_object_constructor = none) →
      baml_call_object_constructor lib args alen (some a) (some b) =
        { events := [], outPtrWrite := some none, outLenWrite := some 0 }) ∧
    ((lib = none ∨ lib.bind BamlLibrary.call_object_method = none ∨ runtime = none) →
      baml_call_object_method lib runtime args alen (some a) (some b) =
        { events := [], outPtrWrite := some none, outLenWrite := some 0 }) := by
  refine ⟨?_, ?_, ?_, ?_, ?_, ?_, ?_⟩
  · intro h
    cases lib with
    | none => rfl
    | some l =>
      rcases h with h | h
      · exact absurd h (by simp)
      · simp only [Option.some_bind] at h
        simp [baml_version, h, nullOutput]
  · intro h
    cases lib with
    | none => rfl
    | some l =>
      rcases h with h | h
      · exact absurd h (by simp)
      · simp only [Option.some_bind] at h
        simp [baml_create_runtime, h]
  · intro h
    cases lib with
    | none => rfl
    | some l =>
      rcases h with h | h | h
      · exact absurd h (by simp)
      · simp only [Option.some_bind] at h
        simp [baml_destroy_runtime, h]
      · subst h
        cases hf : l.destroy_runtime with
        | none => simp [baml_destroy_runtime, hf]
        | some u => simp [baml_destroy_runtime, hf]
  · intro h
    cases lib with
    | none => rfl
    | some l =>
      rcases h with h | h | h
      · exact absurd h (by simp)
      · simp only [Option.some_bind] at h
        simp [baml_call_function, h, nullOutput]
      · subst h
        cases hf : l.call_function with
        | none => simp [baml_call_function, hf, nullOutput]
        | some f => simp [baml_call_function, hf, nullOutput]
  · intro h
    cases lib with
    | none => rfl
    | some l =>
      rcases h with h | h | h
      · exact absurd h (by simp)
      · simp only [Option.some_bind] at h
        simp [baml_call_function_stream, h, nullOutput]
      · subst h
        cases hf : l.call_function_stream with
        | none => simp [baml_call_function_stream, hf, nullOutput]
        | some f => simp [baml_call_function_stream, hf, nullOutput]
  · intro h
    cases lib with
    | none => rfl
    | some l =>
      rcases h with h | h
      · exact absurd h (by simp)
      · simp only [Option.some_bind] at h
        simp [baml_call_object_constructor, h, nullOutput]
  · intro h
    cases lib with
    | none => rfl
    | some l =>
      rcases h with h | h | h
      · exact absurd h (by simp)
      · simp only [Option.some_bind] at h
        simp [baml_call_object_method, h, nullOutput]
      · subst h
        cases hf : l.call_object_method with
        | none => simp [baml_call_object_method, hf, nullOutput]
        | some f => simp [baml_call_object_method, hf, nullOutput]

/-- Witness for C1: a NULL library handle, a NULL runtime against a fully
resolved library, and an unresolved symbol, each at concrete inputs. -/
theorem C1_validation_failure_witness :
    baml_version none (some 1) (some 2) =
      { events := [], outPtrWrite := some none, outLenWrite := some 0 } ∧
    baml_create_runtime none (some 1) (some 2) (some 3) =
      { events := [], runtime := none } ∧
    baml_destroy_runtime none (some 1) = [] ∧
    baml_call_function (some fullLib) none (some 2) (some 3) 4 5 (some 6) (some 7) =
      { events := [], outPtrWrite := some none, outLenWrite := some 0 } ∧
    baml_call_function_stream (some fullLib) none (some 2) (some 3) 4 5 (some 6) (some 7) =
      { events := [], outPtrWrite := some none, outLenWrite := some 0 } ∧
    baml_call_object_constructor (some mandLib) (some 3) 4 (some 6) (some 7) =
      { events := [], outPtrWrite := some none, outLenWrite := some 0 } ∧
    baml_call_object_method (some fullLib) none (some 3) 4 (some 6) (some 7) =
      { events := [], outPtrWrite := some none, outLenWrite := some 0 } :=
  ⟨(C1_validation_failure none (some 1) (some 1) (some 2) (some 3) (some 1) (some 1)
      0 0 1 2).1 (Or.inl rfl),
   (C1_validation_failure none (some 1) (some 1) (some 2) (some 3) (some 1) (some 1)
      0 0 1 2).2.1 (Or.inl rfl),
   (C1_validation_failure none (some 1) (some 1) (some 2) (some 3) (some 1) (some 1)
      0 0 1 2).2.2.1 (Or.inl rfl),
   (C1_validation_failure (some fullLib) none (some 1) (some 1) (some 1) (some 2) (some 3)
      4 5 6 7).2.2.2.1 (Or.inr (Or.inr rfl)),
   (C1_validation_failure (some fullLib) none (some 1) (some 1) (some 1) (some 2) (some 3)
      4 5 6 7).2.2.2.2.1 (Or.inr (Or.inr rfl)),
   (C1_validation_failure (some mandLib) none (some 1) (some 1) (some 1) (some 2) (some 3)
      4 5 6 7).2.2.2.2.2.1 (Or.inr rfl),
   (C1_validation_failure (some fullLib) none (some 1) (some 1) (some 1) (some 2) (some 3)
      4 5 6 7).2.2.2.2.2.2 (Or.inr (Or.inr rfl))⟩

/-- C3: when validation passes, each dispatcher operation invokes exactly
its one resolved symbol, with the caller's arguments passed through
unchanged, and writes the returned buffer's pointer and length verbatim to
the output locations (`baml_create_runtime` returns the symbol's result
verbatim; `baml_destroy_runtime` invokes exactly the destructor). -/
theorem C3_forwarding (l : BamlLibrary) (runtime root src env fn args : Ptr)
    (alen cid a b : Nat)
    (vf : VersionFn) (crf : CreateRuntimeFn) (cf csf : CallFunctionFn)
    (ccf : CallObjectConstructorFn) (cmf : CallObjectMethodFn) :
    (l.version = some vf →
      baml_version (some l) (some a) (some b) =
        { events := [CallEvent.versionQuery]
          outPtrWrite := some (vf ()).ptr
          outLenWrite := some (vf ()).len }) ∧
    (l.create_runtime = some crf →
      baml_create_runtime (some l) root src env =
        { events := [CallEvent.createRuntime root src env]
          runtime := crf root src env }) ∧
    (l.destroy_runtime = some () → runtime.isSome = true →
      baml_destroy_runtime (some l) runtime = [CallEvent.destroyRuntime runtime]) ∧
    (l.call_function = some cf → runtime.isSome = true →
      baml_call_function (some l) runtime fn args alen cid (some a) (some b) =
        { events := [CallEvent.callFunction runtime fn args alen cid]
          outPtrWrite := some (cf runtime fn args alen cid).ptr
          outLenWrite := some (cf runtime fn args alen cid).len }) ∧
    (l.call_function_stream = some csf → runtime.isSome = true →
      baml_call_function_stream (some l) runtime fn args alen cid (some a) (some b) =
        { events := [CallEvent.callFunctionStream runtime fn args alen cid]
          outPtrWrite := some (csf runtime fn args alen cid).ptr
          outLenWrite := some (csf runtime fn args alen cid).len }) ∧
    (l.call_object_constructor = some ccf →
      baml_call_object_constructor (some l) args alen (some a) (some b) =
        { events := [CallEvent.callObjectConstructor args alen]
          outPtrWrite := some (ccf args alen).ptr
          outLenWrite := some (ccf args alen).len }) ∧
    (l.call_object_method = some cmf → runtime.isSome = true →
      baml_call_object_method (some l) runtime args alen (some a) (some b) =
        { events := [CallEvent.callObjectMethod runtime args alen]
          outPtrWrite := some (cmf runtime args alen).ptr
          outLenWrite := some (cmf runtime args alen).len }) := by
  refine ⟨?_, ?_, ?_, ?_, ?_, ?_, ?_⟩
  · intro h
    simp [baml_version, h]
  · intro h
    simp [baml_create_runtime, h]
  · intro h hr
    cases runtime with
    | none => simp at hr
    | some r => simp [baml_destroy_runtime, h]
  · intro h hr
    cases runtime with
    | none => simp at hr
    | some r => simp [baml_call_function, h]
  · intro h hr
    cases runtime with
    | none => simp at hr
    | some r => simp [baml_call_function_stream, h]
  · intro h
    simp [baml_call_object_constructor, h]
  · intro h hr
    cases runtime with
    | none => simp at hr
    | some r => simp [baml_call_object_method, h]

/-- Witness for C3 against the fully resolved stub library, whose stub
symbols all return the buffer `(ptr 100, len 4)`. -/
theorem C3_forwarding_witness :
    baml_version (some fullLib) (some 1) (some 2) =
      { events := [CallEvent.versionQuery]
        outPtrWrite := some (some 100), outLenWrite := some 4 } ∧
    baml_create_runtime (some fullLib) (some 1) (some 2) (some 3) =
      { events := [CallEvent.createRuntime (some 1) (some 2) (some 3)]
        runtime := some 9 } ∧
    baml_destroy_runtime (some fullLib) (some 9) = [CallEvent.destroyRuntime (some 9)] ∧
    baml_call_function (some fullLib) (some 9) (some 2) (some 3) 4 5 (some 6) (some 7) =
      { events := [CallEvent.callFunction (some 9) (some 2) (some 3) 4 5]
        outPtrWrite := some (some 100), outLenWrite := some 4 } ∧
    baml_call_function_stream (some fullLib) (some 9) (some 2) (some 3) 4 5 (some 6) (some 7) =
      { events := [CallEvent.callFunctionStream (some 9) (some 2) (some 3) 4 5]
        outPtrWrite := some (some 100), outLenWrite := some 4 } ∧
    baml_call_object_constructor (some fullLib) (some 3) 4 (some 6) (some 7) =
      { events := [CallEvent.callObjectConstructor (some 3) 4]
        outPtrWrite := some (some 100), outLenWrite := some 4 } ∧
    baml_call_object_method (some fullLib) (some 9) (some 3) 4 (some 6) (some 7) =
      { events := [CallEvent.callObjectMethod (some 9) (some 3) 4]
        outPtrWrite := some (some 100), outLenWrite := some 4 } :=
  ⟨(C3_forwarding fullLib (some 9) (some 1) (some 2) (some 3) (some 2) (some 3) 4 5 1 2
      stubVersion stubCreate stubCall stubCall stubObjCtor stubObjMethod).1 rfl,
   (C3_forwarding fullLib (some 9) (some 1) (some 2) (some 3) (some 2) (some 3) 4 5 1 2
      stubVersion stubCreate stubCall stubCall stubObjCtor stubObjMethod).2.1 rfl,
   (C3_forwarding fullLib (some 9) (some 1) (some 2) (some 3) (some 2) (some 3) 4 5 1 2
      stubVersion stubCreate stubCall stubCall stubObjCtor stubObjMethod).2.2.1 rfl rfl,
   (C3_forwarding fullLib (some 9) (some 1) (some 2) (some 3) (some 2) (some 3) 4 5 6 7
      stubVersion stubCreate stubCall stubCall stubObjCtor stubObjMethod).2.2.2.1 rfl rfl,
   (C3_forwarding fullLib (some 9) (some 1) (some 2) (some 3) (some 2) (some 3) 4 5 6 7
      stubVersion stubCreate stubCall stubCall stubObjCtor stubObjMethod).2.2.2.2.1 rfl rfl,
   (C3_forwarding fullLib (some 9) (some 1) (some 2) (some 3) (some 2) (some 3) 4 5 6 7
      stubVersion stubCreate stubCall stubCall stubObjCtor stubObjMethod).2.2.2.2.2.1 rfl,
   (C3_forwarding fullLib (some 9) (some 1) (some 2) (some 3) (some 2) (some 3) 4 5 6 7
      stubVersion stubCreate stubCall stubCall stubObjCtor stubObjMethod).2.2.2.2.2.2 rfl rfl⟩

/-- C10: for every buffer-returning dispatcher operation, if either output
location is NULL, the operation invokes no underlying symbol, writes
nothing through the NULL output location, and still writes NULL / zero
through whichever output location is non-null — for every library value. -/
theorem C10_null_output_locations (lib : Option BamlLibrary)
    (runtime fn args op ol : Ptr) (alen cid : Nat)
    (h : op = none ∨ ol = none) :
    (baml_version lib op ol).events = [] ∧
    (baml_version lib op ol).outPtrWrite = op.map (fun _ => (none : Ptr)) ∧
    (baml_version lib op ol).outLenWrite = ol.map (fun _ => (0 : Nat)) ∧
    (baml_call_function lib runtime fn args alen cid op ol).events = [] ∧
    (baml_call_function lib runtime fn args alen cid op ol).outPtrWrite =
      op.map (fun _ => (none : Ptr)) ∧
    (baml_call_function lib runtime fn args alen cid op ol).outLenWrite =
      ol.map (fun _ => (0 : Nat)) ∧
    (baml_call_function_stream lib runtime fn args alen cid op ol).events = [] ∧
    (baml_call_function_stream lib runtime fn args alen cid op ol).outPtrWrite =
      op.map (fun _ => (none : Ptr)) ∧
    (baml_call_function_stream lib runtime fn args alen cid op ol).outLenWrite =
      ol.map (fun _ => (0 : Nat)) ∧
    (baml_call_object_constructor lib args alen op ol).events = [] ∧
    (baml_call_object_constructor lib args alen op ol).outPtrWrite =
      op.map (fun _ => (none : Ptr)) ∧
    (baml_call_object_constructor lib args alen op ol).outLenWrite =
      ol.map (fun _ => (0 : Nat)) ∧
    (baml_call_object_method lib runtime args alen op ol).events = [] ∧
    (baml_call_object_method lib runtime args alen op ol).outPtrWrite =
      op.map (fun _ => (none : Ptr)) ∧
    (baml_call_object_method lib runtime args alen op ol).outLenWrite =
      ol.map (fun _ => (0 : Nat)) := by
  have h1 : baml_version lib op ol = nullOutput op ol := by
    cases lib with
    | none => rfl
    | some l =>
      cases hf : l.version with
      | none => simp [baml_version, hf]
      | some f => rcases h with rfl | rfl <;> simp [baml_version, hf]
  have h2 : baml_call_function lib runtime fn args alen cid op ol = nullOutput op ol := by
    cases lib with
    | none => rfl
    | some l =>
      cases hf : l.call_function with
      | none => simp [baml_call_function, hf]
      | some f => rcases h with rfl | rfl <;> simp [baml_call_function, hf]
  have h3 : baml_call_function_stream lib runtime fn args alen cid op ol
      = nullOutput op ol := by
    cases lib with
    | none => rfl
    | some l =>
      cases hf : l.call_function_stream with
      | none => simp [baml_call_function_stream, hf]
      | some f => rcases h with rfl | rfl <;> simp [baml_call_function_stream, hf]
  have h4 : baml_call_object_constructor lib args alen op ol = nullOutput op ol := by
    cases lib with
    | none => rfl
    | some l =>
      cases hf : l.call_object_constructor with
      | none => simp [baml_call_object_constructor, hf]
      | some f => rcases h with rfl | rfl <;> simp [baml_call_object_constructor, hf]
  have h5 : baml_call_object_method lib runtime args alen op ol = nullOutput op ol := by
    cases lib with
    | none => rfl
    | some l =>
      cases hf : l.call_object_method with
      | none => simp [baml_call_object_method, hf]
      | some f => rcases h with rfl | rfl <;> simp [baml_call_object_method, hf]
  rw [h1, h2, h3, h4, h5]
  simp [nullOutput]

/-- Witness for C10 at a NULL `out_ptr` against the fully resolved
library. -/
theorem C10_null_output_locations_witness :
    (baml_version (some fullLib) none (some 8)).events = [] ∧
    (baml_version (some fullLib) none (some 8)).outPtrWrite = none ∧
    (baml_version (some fullLib) none (some 8)).outLenWrite = some 0 ∧
    (baml_call_function (some fullLib) (some 9) (some 2) (some 3) 4 5 none (some 8)).events
      = [] :=
  ⟨(C10_null_output_locations (some fullLib) (some 9) (some 2) (some 3) none (some 8) 4 5
      (Or.inl rfl)).1,
   (C10_null_output_locations (some fullLib) (some 9) (some 2) (some 3) none (some 8) 4 5
      (Or.inl rfl)).2.1,
   (C10_null_output_locations (some fullLib) (some 9) (some 2) (some 3) none (some 8) 4 5
      (Or.inl rfl)).2.2.1,
   (C10_null_output_locations (some fullLib) (some 9) (some 2) (some 3) none (some 8) 4 5
      (Or.inl rfl)).2.2.2.1⟩

end BamlFFI

namespace BamlFFI

/-- Any library struct `baml_library_load` returns non-null has a non-null
OS handle and both mandatory symbols resolved. -/
theorem load_fully_loaded (os : OS) (path : Option String) (l : BamlLibrary)
    (hload : (baml_library_load os path).lib = some l) :
    l.handle.isSome = true ∧ l.create_runtime.isSome = true ∧
      l.call_function.isSome = true := by
  cases path with
  | none => simp [baml_library_load] at hload
  | some p =>
    cases hopen : os.dlopen p with
    | none => simp [baml_library_load, hopen] at hload
    | some hd =>
      cases hc : os.callocOk with
      | false => simp [baml_library_load, hopen, hc] at hload
      | true =>
        cases hm : ((os.dlsym hd).create_baml_runtime.isSome
            && (os.dlsym hd).call_function_from_c.isSome) with
        | false =>
          simp [baml_library_load, hopen, hc, hm, load_symbols, freshLib] at hload
        | true =>
          simp only [baml_library_load, hopen, hc, if_true, load_symbols, freshLib,
            hm, Option.some.injEq] at hload
          subst hload
          have hm2 := hm
          rw [Bool.and_eq_true] at hm2
          obtain ⟨h1, h2⟩ := hm2
          exact ⟨rfl, h1, h2⟩

/-- The probing loop returns the first non-null `baml_library_load`
result over its path list. -/
theorem probePaths_lib_eq (os : OS) (ps : List String) :
    (probePaths os ps).lib
      = ps.findSome? (fun p => (baml_library_load os (some p)).lib) := by
  induction ps with
  | nil => rfl
  | cons p rest ih =>
    cases hl : (baml_library_load os (some p)).lib with
    | none => simp [probePaths, List.findSome?_cons, hl, ih]
    | some l => simp [probePaths, List.findSome?_cons, hl]

/-- C2: `baml_library_load` returns a non-null handle exactly when the
path is non-null, the dynamic-library open succeeds, the wrapper-state
allocation succeeds, and both mandatory symbols resolve; and when mandatory
resolution fails after a successful open, the returned value is NULL and
the trace shows the just-opened handle closed and the wrapper state freed,
so nothing leaks. -/
theorem C2_load_success_iff (os : OS) (path : Option String) (p : String) (h : Nat) :
    ((baml_library_load os path).lib.isSome = true ↔
      ∃ q hq, path = some q ∧ os.dlopen q = some hq ∧ os.callocOk = true ∧
        (os.dlsym hq).create_baml_runtime.isSome = true ∧
        (os.dlsym hq).call_function_from_c.isSome = true) ∧
    (path = some p → os.dlopen p = some h → os.callocOk = true →
      ((os.dlsym h).create_baml_runtime.isSome
        && (os.dlsym h).call_function_from_c.isSome) = false →
      (baml_library_load os path).lib = none ∧
      (baml_library_load os path).events =
        [OSEvent.dlopenCall p (some h), OSEvent.callocCall,
         OSEvent.dlcloseCall h, OSEvent.freeCall]) := by
  constructor
  · constructor
    · intro hsome
      cases path with
      | none => simp [baml_library_load] at hsome
      | some q =>
        cases hopen : os.dlopen q with
        | none => simp [baml_library_load, hopen] at hsome
        | some hd =>
          cases hc : os.callocOk with
          | false => simp [baml_library_load, hopen, hc] at hsome
          | true =>
            cases hm : ((os.dlsym hd).create_baml_runtime.isSome
                && (os.dlsym hd).call_function_from_c.isSome) with
            | false =>
              simp [baml_library_load, hopen, hc, hm, load_symbols, freshLib] at hsome
            | true =>
              have hm2 := hm
              rw [Bool.and_eq_true] at hm2
              obtain ⟨h1, h2⟩ := hm2
              exact ⟨q, hd, rfl, hopen, rfl, h1, h2⟩
    · rintro ⟨q, hq, rfl, hopen, hc, h1, h2⟩
      simp [baml_library_load, hopen, hc, load_symbols, freshLib, h1, h2]
  · intro hpath hopen hc hm
    subst hpath
    constructor <;>
      simp [baml_library_load, hopen, hc, hm, load_symbols, freshLib]

/-- Witness for C2: mandatory-symbol failure closes and frees; a fully
resolved OS yields a non-null handle. -/
theorem C2_load_success_iff_witness :
    (baml_library_load noSymsOS (some "x")).lib = none ∧
    (baml_library_load noSymsOS (some "x")).events =
      [OSEvent.dlopenCall "x" (some 3), OSEvent.callocCall,
       OSEvent.dlcloseCall 3, OSEvent.freeCall] ∧
    (baml_library_load goodOS (some "x")).lib.isSome = true :=
  ⟨((C2_load_success_iff noSymsOS (some "x") "x" 3).2 rfl rfl rfl rfl).1,
   ((C2_load_success_iff noSymsOS (some "x") "x" 3).2 rfl rfl rfl rfl).2,
   (C2_load_success_iff goodOS (some "x") "x" 1).1.mpr
     ⟨"x", 1, rfl, rfl, rfl, rfl, rfl⟩⟩

/-- C4: `baml_library_load_default` probes its platform candidate list
sequentially in the listed order and returns exactly the
`baml_library_load` result of the first succeeding candidate; it returns
NULL exactly when `baml_library_load` fails on every candidate. -/
theorem C4_load_default_first_success (os : OS) (plat : Platform) :
    (baml_library_load_default os plat).lib
      = (defaultPaths plat).findSome? (fun p => (baml_library_load os (some p)).lib) ∧
    ((baml_library_load_default os plat).lib = none ↔
      ∀ p ∈ defaultPaths plat, (baml_library_load os (some p)).lib = none) := by
  refine ⟨probePaths_lib_eq os (defaultPaths plat), ?_⟩
  rw [baml_library_load_default, probePaths_lib_eq]
  exact List.findSome?_eq_none_iff

/-- C6: every library struct returned non-null by `baml_library_load` or
`baml_library_load_default` is fully loaded (non-null OS handle, both
mandatory symbols resolved) and satisfies `baml_library_is_loaded`; and
`baml_library_is_loaded` is a pure predicate true exactly on a non-null
struct holding a non-null OS handle. -/
theorem C6_loaded_invariant (os : OS) (path : Option String) (plat : Platform)
    (lib : Option BamlLibrary) (l l2 : BamlLibrary) :
    ((baml_library_load os path).lib = some l →
      l.handle.isSome = true ∧ l.create_runtime.isSome = true ∧
      l.call_function.isSome = true ∧ baml_library_is_loaded (some l) = true) ∧
    ((baml_library_load_default os plat).lib = some l2 →
      l2.handle.isSome = true ∧ l2.create_runtime.isSome = true ∧
      l2.call_function.isSome = true ∧ baml_library_is_loaded (some l2) = true) ∧
    (baml_library_is_loaded lib = true ↔ ∃ m, lib = some m ∧ m.handle.isSome = true) := by
  refine ⟨?_, ?_, ?_⟩
  · intro hload
    obtain ⟨h1, h2, h3⟩ := load_fully_loaded os path l hload
    exact ⟨h1, h2, h3, by simp [baml_library_is_loaded, h1]⟩
  · intro hload
    rw [baml_library_load_default, probePaths_lib_eq] at hload
    obtain ⟨l₁, a, l₂, hsplit, ha, hnone⟩ := List.findSome?_eq_some_iff.mp hload
    obtain ⟨h1, h2, h3⟩ := load_fully_loaded os (some a) l2 ha
    exact ⟨h1, h2, h3, by simp [baml_library_is_loaded, h1]⟩
  · cases lib with
    | none => simp [baml_library_is_loaded]
    | some m => simp [baml_library_is_loaded]

/-- Witness for C6: the struct loaded against the all-symbols OS, both via
`baml_library_load` and via `baml_library_load_default`. -/
theorem C6_loaded_invariant_witness :
    (fullLib.handle.isSome = true ∧ fullLib.create_runtime.isSome = true ∧
      fullLib.call_function.isSome = true ∧
      baml_library_is_loaded (some fullLib) = true) ∧
    (fullLib.handle.isSome = true ∧ fullLib.create_runtime.isSome = true ∧
      fullLib.call_function.isSome = true ∧
      baml_library_is_loaded (some fullLib) = true) :=
  ⟨(C6_loaded_invariant goodOS (some "x") Platform.linux (some fullLib)
      fullLib fullLib).1 rfl,
   (C6_loaded_invariant goodOS (some "x") Platform.linux (some fullLib)
      fullLib fullLib).2.1 rfl⟩

end BamlFFI
